import Mathlib

/-!
Shallow embedding of the session-security engine of the backend service:
issuance of access/refresh credential pairs, refresh-token rotation with
reuse/theft detection and a 10 second grace window, family / principal
revocation, the in-memory access-token deny-list, the security event
processor and the request authentication middleware.

The definitions mirror the TypeScript source:
  - JWTService in src/core/utils/jwt.ts
  - authenticateJWT in src/core/middleware/authenticate.ts
  - processAuthEvent, recordLoginEvent, createSecurityAlert and the
    trusted-device helpers of the security module
  - generateDeviceFingerprint / normalizeIp in the security utils

Modelling conventions:
  - Time is milliseconds since the epoch, as a Nat.  A JS comparison
    new Date() > d becomes d < now, and Date.now() - t < G is equivalent
    over Nat subtraction because both a negative JS difference and a
    truncated Nat difference are below the positive grace constant.
  - The persistent store (prisma) is a record of in-memory lists; create
    appends, updateMany maps over the list, findFirst/findUnique is
    List.find?.  Row identity is positional / by the numeric id column.
  - Signed JWTs are modelled symbolically: a token is the payload it was
    signed over, tagged by which secret signed it.  The two secrets are
    assumed distinct, so verifying a token against the wrong secret
    fails.  jwt.sign with expiresIn stores the expiry inside the payload
    and jwt.verify rejects a token whose stored expiry has passed.
  - crypto.randomBytes ids (family id, jti) are drawn from the store
    counter nextId, which also plays the role of the autoincrement id.
  - sha256 device fingerprints are abstracted as an injective encoding
    of the user-agent string; the code only ever compares them for
    equality.
  - Security alerts keep the owner id and the alert type; the free-text
    message and metadata columns are omitted, nothing here reads them.
  - Errors: every throw new UnauthorizedError site is mapped to one
    constructor of AuthError, named after its message.
-/

namespace SessionSec

/-- Grace period for rotation race conditions, ROTATION_GRACE_MS = 10 000 ms. -/
def ROTATION_GRACE_MS : Nat := 10000

/-- Default access token lifetime, 5 minutes in ms (JWT_ACCESS_EXPIRY default 5m). -/
def ACCESS_LIFETIME_MS : Nat := 5 * 60 * 1000

/-- Default refresh token lifetime, 15 days in ms (JWT_REFRESH_EXPIRY default 15d). -/
def REFRESH_LIFETIME_MS : Nat := 15 * 24 * 60 * 60 * 1000

/-- JS string truthiness for an optional string: undefined/null and the
empty string are falsy. -/
def strTruthy : Option String → Bool
  | none => false
  | some s => if s = "" then false else true

/-- JS a or-else b on optional strings: a when truthy, otherwise b. -/
def jsOrStr (a b : Option String) : Option String :=
  if strTruthy a then a else b

/-- JS s or-else empty string, for nullable text columns (user.name). -/
def jsOrEmpty (s : Option String) : String :=
  match s with
  | none => ""
  | some v => v

/-- JS n or-else 1, for user.tokenVersion loaded through an optional row. -/
def jsOrOne : Option Nat → Nat
  | none => 1
  | some v => if v = 0 then 1 else v

/-- Claims of an access token: userId, email, name plus the signed-in expiry. -/
structure AccessPayload where
  userId : String
  email : String
  name : String
  exp : Nat
deriving DecidableEq

/-- Claims of a refresh token: userId, tokenVersion, family id fid, unique
jti, plus the signed-in expiry. -/
structure RefreshPayload where
  userId : String
  tokenVersion : Nat
  fid : String
  jti : String
  exp : Nat
deriving DecidableEq

/-- A signed bearer string.  accessJwt is signed with the access secret,
refreshJwt with the refresh secret (assumed distinct), garbage is any
string that verifies under neither. -/
inductive SignedToken where
  | accessJwt (p : AccessPayload)
  | refreshJwt (p : RefreshPayload)
  | garbage (s : String)
deriving DecidableEq

/-- One row of the users table, restricted to the columns the engine reads. -/
structure UserRec where
  id : String
  email : String
  name : Option String
  tokenVersion : Nat
deriving DecidableEq

/-- One row of refresh_tokens (RefreshCredentialRecord of the spec). -/
structure RefreshTokenRecord where
  id : Nat
  userId : String
  token : SignedToken
  tokenVersion : Nat
  familyId : String
  deviceFingerprint : Option String
  expiresAt : Nat
  isRevoked : Bool
  rotatedAt : Option Nat
  replacedByToken : Option SignedToken
  lastUsedAt : Option Nat
  deviceInfo : Option String
  ipAddress : Option String
deriving DecidableEq

/-- The alertType column of security_alerts. -/
inductive AlertType where
  | new_device
  | new_location
  | suspicious_ip
  | multiple_failures
  | token_reuse
  | device_mismatch
deriving DecidableEq

/-- One row of security_alerts (message and metadata columns omitted,
no modelled operation reads them). -/
structure SecurityAlert where
  userId : String
  alertType : AlertType
deriving DecidableEq

/-- The eventType column of login_history. -/
inductive LoginEventType where
  | login
  | token_refresh
  | new_device
  | new_ip
deriving DecidableEq

/-- One row of login_history (browser and os label columns omitted). -/
structure LoginEvent where
  userId : String
  ipAddress : String
  deviceInfo : Option String
  deviceFingerprint : String
  isTrustedDevice : Bool
  eventType : LoginEventType
  createdAt : Nat
deriving DecidableEq

/-- One row of trusted_devices, unique on (userId, deviceFingerprint). -/
structure TrustedDevice where
  id : Nat
  userId : String
  deviceFingerprint : String
  lastIpAddress : Option String
  lastUsedAt : Option Nat
deriving DecidableEq

/-- The whole persistent + process state the engine touches: the four
logical tables, the user rows, the in-memory access-token deny-list
(token paired with its removal time), and the id/randomness counter. -/
structure DBState where
  users : List UserRec
  refreshTokens : List RefreshTokenRecord
  securityAlerts : List SecurityAlert
  loginHistory : List LoginEvent
  trustedDevices : List TrustedDevice
  blacklist : List (SignedToken × Nat)
  nextId : Nat
deriving DecidableEq

/-- Result of a successful rotation: the new pair. -/
structure RotationResult where
  accessToken : SignedToken
  refreshToken : SignedToken
deriving DecidableEq

/-- One constructor per distinct UnauthorizedError site of the engine. -/
inductive AuthError where
  /-- jwt.verify failed on the presented refresh token (bad signature or
  jwt-level expiry), message Invalid or expired refresh token. -/
  | invalidRefreshJwt
  /-- message Refresh token not found. -/
  | refreshNotFound
  /-- message Refresh token has expired. -/
  | refreshExpired
  /-- message Session has been invalidated. Please re-authenticate. -/
  | sessionInvalidated
  /-- message Token reuse detected. Session revoked for security. -/
  | tokenReuseDetected
  /-- message Device mismatch detected. Please re-authenticate. -/
  | deviceMismatch
  /-- blacklist hit in verifyAccessToken, message Token has been revoked. -/
  | accessRevoked
  /-- jwt.verify failed on an access token or wrong token type. -/
  | invalidAccess
  /-- middleware: message No authorization header provided. -/
  | noAuthHeader
  /-- middleware: access expired and no refresh token supplied. -/
  | accessExpiredNoRefresh
  /-- middleware catch-all on the rotation path, message Both access and
  refresh tokens are invalid. Please re-authenticate. -/
  | bothTokensInvalid
  /-- verifyRefreshToken: message Refresh token not found or has been revoked. -/
  | refreshRevokedOrMissing
  /-- verifyRefreshToken: message Refresh token has already been rotated. -/
  | alreadyRotated
  /-- verifyRefreshToken: message Invalid token version. -/
  | invalidTokenVersion
  /-- a required prisma relation row was absent; unreachable under the
  foreign-key integrity the real database enforces. -/
  | missingUserRelation
deriving DecidableEq

/-- generateDeviceFingerprint of the security utils: sha256 over a string
derived from the user agent (with fallback unknown).  The hash is
abstracted as an injective encoding; the engine only compares
fingerprints for equality. -/
def generateDeviceFingerprint (userAgent : Option String) : String :=
  "fp:" ++ (match userAgent with
    | none => "unknown"
    | some ua => if ua = "" then "unknown" else ua)

/-- normalizeIp of the security utils. -/
def normalizeIp : Option String → String
  | none => "unknown"
  | some ip =>
    if ip = "" then "unknown"
    else if ip.startsWith "::ffff:" then ip.drop 7
    else if ip = "::1" then "127.0.0.1"
    else ip

/-- createSecurityAlert of the security module: one insert into
security_alerts. -/
def createSecurityAlert (st : DBState) (userId : String) (alertType : AlertType) : DBState :=
  { st with securityAlerts := st.securityAlerts ++ [{ userId := userId, alertType := alertType }] }

/-- recordLoginEvent of the security module: normalize the ip, fingerprint
the device, look the fingerprint up in trusted_devices for the
isTrustedDevice flag, then insert one login_history row. -/
def recordLoginEvent (st : DBState) (now : Nat) (userId : String) (ipAddress : String)
    (userAgent : Option String) (eventType : LoginEventType) : DBState :=
  let ip := normalizeIp (some ipAddress)
  let fingerprint := generateDeviceFingerprint userAgent
  let trusted := (st.trustedDevices.find?
    (fun d => decide (d.userId = userId) && decide (d.deviceFingerprint = fingerprint))).isSome
  { st with loginHistory := st.loginHistory ++
      [{ userId := userId, ipAddress := ip, deviceInfo := userAgent,
         deviceFingerprint := fingerprint, isTrustedDevice := trusted,
         eventType := eventType, createdAt := now }] }

/-- generateAccessToken of JWTService: sign the claims with the access
secret and a 5 minute expiry. -/
def generateAccessToken (now : Nat) (userId email name : String) : SignedToken :=
  SignedToken.accessJwt { userId := userId, email := email, name := name, exp := now + ACCESS_LIFETIME_MS }

/-- The fresh refresh JWT minted by generateRefreshToken: claims userId,
type refresh, tokenVersion, fid, jti, 15 day expiry. -/
def mkRefreshJwt (now : Nat) (userId : String) (tokenVersion : Nat)
    (family : String) (ctr : Nat) : SignedToken :=
  SignedToken.refreshJwt
    { userId := userId, tokenVersion := tokenVersion, fid := family,
      jti := "jti:" ++ toString ctr, exp := now + REFRESH_LIFETIME_MS }

/-- generateRefreshToken of JWTService: read the owner tokenVersion
(defaulting to 1 through the JS or), reuse the given family or mint a
fresh one, reuse the given fingerprint or compute it from the device
info, sign a fresh refresh JWT and insert the matching refresh_tokens
row.  Returns the token and the new store. -/
def generateRefreshToken (st : DBState) (now : Nat) (userId : String)
    (deviceInfo ipAddress : Option String) (familyId : Option String)
    (deviceFingerprint : Option String) : SignedToken × DBState :=
  let tokenVersion := jsOrOne ((st.users.find? (fun u => decide (u.id = userId))).map UserRec.tokenVersion)
  let family := match jsOrStr familyId none with
    | some f => f
    | none => "fam:" ++ toString st.nextId
  let fingerprint := match jsOrStr deviceFingerprint none with
    | some fp => fp
    | none => generateDeviceFingerprint deviceInfo
  let token := mkRefreshJwt now userId tokenVersion family st.nextId
  let record : RefreshTokenRecord :=
    { id := st.nextId, userId := userId, token := token, tokenVersion := tokenVersion,
      familyId := family, deviceFingerprint := some fingerprint,
      expiresAt := now + REFRESH_LIFETIME_MS, isRevoked := false, rotatedAt := none,
      replacedByToken := none, lastUsedAt := none, deviceInfo := deviceInfo,
      ipAddress := ipAddress }
  (token, { st with refreshTokens := st.refreshTokens ++ [record], nextId := st.nextId + 1 })

/-- generateTokenPair of JWTService (issuePair of the spec): a fresh access
token plus a refresh token in a brand new family. -/
def generateTokenPair (st : DBState) (now : Nat) (userId email name : String)
    (deviceInfo ipAddress deviceFingerprint : Option String) :
    (SignedToken × SignedToken) × DBState :=
  let accessToken := generateAccessToken now userId email name
  let gen := generateRefreshToken st now userId deviceInfo ipAddress none deviceFingerprint
  ((accessToken, gen.1), gen.2)

/-- revokeRefreshToken of JWTService: updateMany where token, set isRevoked. -/
def revokeRefreshToken (st : DBState) (token : SignedToken) : DBState :=
  let ts := st.refreshTokens.map fun r =>
    if decide (r.token = token) then { r with isRevoked := true } else r
  { st with refreshTokens := ts }

/-- revokeAllUserTokens of JWTService: updateMany where userId and not yet
revoked, set isRevoked. -/
def revokeAllUserTokens (st : DBState) (userId : String) : DBState :=
  let ts := st.refreshTokens.map fun r =>
    if decide (r.userId = userId) && !r.isRevoked then { r with isRevoked := true } else r
  { st with refreshTokens := ts }

/-- revokeTokenFamily of JWTService: updateMany where familyId and not yet
revoked, set isRevoked. -/
def revokeTokenFamily (st : DBState) (familyId : String) : DBState :=
  let ts := st.refreshTokens.map fun r =>
    if decide (r.familyId = familyId) && !r.isRevoked then { r with isRevoked := true } else r
  { st with refreshTokens := ts }

/-- incrementUserTokenVersion of JWTService (revokeAllForPrincipal of the
spec): bump the user tokenVersion by one, then bulk-revoke all the user
refresh tokens; returns the new version. -/
def incrementUserTokenVersion (st : DBState) (userId : String) : Except AuthError Nat × DBState :=
  match st.users.find? (fun u => decide (u.id = userId)) with
  | none => (Except.error AuthError.missingUserRelation, st)
  | some u =>
    let us := st.users.map fun x =>
      if decide (x.id = userId) then { x with tokenVersion := x.tokenVersion + 1 } else x
    let st1 := { st with users := us }
    (Except.ok (u.tokenVersion + 1), revokeAllUserTokens st1 userId)

/-- blacklistAccessToken of JWTService: add the token to the deny-list;
the setTimeout auto-removal after 5 * 60 * 1000 ms is modelled by storing
the removal time next to the token. -/
def blacklistAccessToken (st : DBState) (now : Nat) (token : SignedToken) : DBState :=
  { st with blacklist := st.blacklist ++ [(token, now + 5 * 60 * 1000)] }

/-- A deny-list entry for this token exists and its removal timeout has
not yet fired. -/
def blacklistActive (st : DBState) (now : Nat) (token : SignedToken) : Bool :=
  st.blacklist.any (fun e => decide (e.1 = token) && decide (now < e.2))

/-- verifyAccessToken of JWTService: deny-list first, then signature /
expiry under the access secret, then the token type. -/
def verifyAccessToken (st : DBState) (now : Nat) (token : SignedToken) :
    Except AuthError AccessPayload :=
  if blacklistActive st now token then Except.error AuthError.accessRevoked
  else
    match token with
    | SignedToken.accessJwt p =>
      if p.exp ≤ now then Except.error AuthError.invalidAccess else Except.ok p
    | SignedToken.refreshJwt _ => Except.error AuthError.invalidAccess
    | SignedToken.garbage _ => Except.error AuthError.invalidAccess

/-- The theft response of rotateRefreshToken step 4: revoke the whole
family, raise one token_reuse alert for the owner (alert failures are
swallowed in the source, so the insert is modelled as succeeding), and
fail with tokenReuseDetected. -/
def reuseTheftResponse (st : DBState) (storedToken : RefreshTokenRecord) :
    Except AuthError RotationResult × DBState :=
  (Except.error AuthError.tokenReuseDetected,
   createSecurityAlert (revokeTokenFamily st storedToken.familyId)
     storedToken.userId AlertType.token_reuse)

/-- Step 4 of rotateRefreshToken, entered when the stored record is
revoked or already has a successor: try the 10 second grace window
(rotatedAt recent, successor resolves to a non-revoked, unexpired
record), otherwise flag theft. -/
def reuseResponse (st : DBState) (now : Nat) (storedToken : RefreshTokenRecord) :
    Except AuthError RotationResult × DBState :=
  match storedToken.rotatedAt with
  | none => reuseTheftResponse st storedToken
  | some rAt =>
    if now - rAt < ROTATION_GRACE_MS then
      match storedToken.replacedByToken with
      | none => reuseTheftResponse st storedToken
      | some succTok =>
        match st.refreshTokens.find? (fun x => decide (x.token = succTok) && !x.isRevoked) with
        | none => reuseTheftResponse st storedToken
        | some replacementRecord =>
          if now < replacementRecord.expiresAt then
            match st.users.find? (fun u => decide (u.id = replacementRecord.userId)) with
            | none => (Except.error AuthError.missingUserRelation, st)
            | some ru =>
              (Except.ok { accessToken := generateAccessToken now ru.id ru.email (jsOrEmpty ru.name),
                           refreshToken := replacementRecord.token }, st)
          else reuseTheftResponse st storedToken
    else reuseTheftResponse st storedToken

/-- Steps 3 to 8 of rotateRefreshToken, after the record and its owner
row have been loaded: db expiry check, global tokenVersion check (mark
revoked, sessionInvalidated), reuse check, device fingerprint check
(revoke family, device_mismatch alert), then the happy path: mint a new
token in the same family with the preserved fingerprint, mark the old
row replaced / rotated / last used, and return the new pair. -/
def rotateAfterLookup (st : DBState) (now : Nat) (storedToken : RefreshTokenRecord)
    (user : UserRec) (deviceInfo ipAddress requestFingerprint : Option String) :
    Except AuthError RotationResult × DBState :=
  if storedToken.expiresAt < now then (Except.error AuthError.refreshExpired, st)
  else if storedToken.tokenVersion < user.tokenVersion then
    let ts := st.refreshTokens.map fun r =>
      if decide (r.id = storedToken.id) then { r with isRevoked := true } else r
    (Except.error AuthError.sessionInvalidated, { st with refreshTokens := ts })
  else if storedToken.isRevoked = true ∨ storedToken.replacedByToken.isSome = true then
    reuseResponse st now storedToken
  else if strTruthy storedToken.deviceFingerprint = true ∧ strTruthy requestFingerprint = true ∧
      storedToken.deviceFingerprint ≠ requestFingerprint then
    (Except.error AuthError.deviceMismatch,
     createSecurityAlert (revokeTokenFamily st storedToken.familyId)
       storedToken.userId AlertType.device_mismatch)
  else
    let gen := generateRefreshToken st now storedToken.userId deviceInfo ipAddress
      (some storedToken.familyId) (jsOrStr storedToken.deviceFingerprint requestFingerprint)
    let newRefreshToken := gen.1
    let ts2 := gen.2.refreshTokens.map fun r =>
      if decide (r.id = storedToken.id) then
        { r with replacedByToken := some newRefreshToken, rotatedAt := some now, lastUsedAt := some now }
      else r
    let st2 := { gen.2 with refreshTokens := ts2 }
    (Except.ok { accessToken := generateAccessToken now user.id user.email (jsOrEmpty user.name),
                 refreshToken := newRefreshToken }, st2)

/-- rotateRefreshToken of JWTService: verify the presented token under the
refresh secret, load the matching refresh_tokens row together with its
owner, then run the rotation state machine. -/
def rotateRefreshToken (st : DBState) (now : Nat) (oldToken : SignedToken)
    (deviceInfo ipAddress requestFingerprint : Option String) :
    Except AuthError RotationResult × DBState :=
  match oldToken with
  | SignedToken.accessJwt _ => (Except.error AuthError.invalidRefreshJwt, st)
  | SignedToken.garbage _ => (Except.error AuthError.invalidRefreshJwt, st)
  | SignedToken.refreshJwt p =>
    if p.exp ≤ now then (Except.error AuthError.invalidRefreshJwt, st)
    else
      match st.refreshTokens.find? (fun r => decide (r.token = SignedToken.refreshJwt p)) with
      | none => (Except.error AuthError.refreshNotFound, st)
      | some storedToken =>
        match st.users.find? (fun u => decide (u.id = storedToken.userId)) with
        | none => (Except.error AuthError.missingUserRelation, st)
        | some user =>
          rotateAfterLookup st now storedToken user deviceInfo ipAddress requestFingerprint

/-- The payload verifyRefreshToken returns. -/
structure RefreshVerifyPayload where
  userId : String
  email : String
  name : String
  tokenVersion : Nat
deriving DecidableEq

/-- verifyRefreshToken of JWTService (read-only validation): signature and
type, findFirst over non-revoked rows, already-rotated check, db expiry,
claimed-versus-stored tokenVersion, global version, then touch lastUsedAt. -/
def verifyRefreshToken (st : DBState) (now : Nat) (token : SignedToken) :
    Except AuthError RefreshVerifyPayload × DBState :=
  match token with
  | SignedToken.accessJwt _ => (Except.error AuthError.invalidRefreshJwt, st)
  | SignedToken.garbage _ => (Except.error AuthError.invalidRefreshJwt, st)
  | SignedToken.refreshJwt p =>
    if p.exp ≤ now then (Except.error AuthError.invalidRefreshJwt, st)
    else
      match st.refreshTokens.find?
        (fun r => decide (r.token = SignedToken.refreshJwt p) && !r.isRevoked) with
      | none => (Except.error AuthError.refreshRevokedOrMissing, st)
      | some storedToken =>
        match st.users.find? (fun u => decide (u.id = storedToken.userId)) with
        | none => (Except.error AuthError.missingUserRelation, st)
        | some user =>
          if storedToken.replacedByToken.isSome then (Except.error AuthError.alreadyRotated, st)
          else if storedToken.expiresAt < now then (Except.error AuthError.refreshExpired, st)
          else if decide (p.tokenVersion ≠ storedToken.tokenVersion) then
            (Except.error AuthError.invalidTokenVersion, st)
          else if storedToken.tokenVersion < user.tokenVersion then
            (Except.error AuthError.sessionInvalidated, st)
          else
            let ts := st.refreshTokens.map fun r =>
              if decide (r.id = storedToken.id) then { r with lastUsedAt := some now } else r
            (Except.ok { userId := user.id, email := user.email, name := jsOrEmpty user.name,
                         tokenVersion := storedToken.tokenVersion },
             { st with refreshTokens := ts })

/-- Result shape of processAuthEvent. -/
structure AuthEventResult where
  isNewDevice : Bool
  isTrusted : Bool
  isNewIp : Option Bool
deriving DecidableEq

/-- processAuthEvent of the security module: trusted devices are touched
(and logged only for explicit logins); untrusted devices are classified
against login_history, the event is recorded, and exactly one alert is
raised for a new device or (with lower precedence) a new network origin. -/
def processAuthEvent (st : DBState) (now : Nat) (userId : String)
    (ipAddress userAgent : Option String) (eventType : LoginEventType) :
    AuthEventResult × DBState :=
  let ip := normalizeIp ipAddress
  let fingerprint := generateDeviceFingerprint userAgent
  match st.trustedDevices.find?
    (fun d => decide (d.userId = userId) && decide (d.deviceFingerprint = fingerprint)) with
  | some td =>
    let ds := st.trustedDevices.map fun d =>
      if decide (d.id = td.id) then { d with lastUsedAt := some now, lastIpAddress := some ip } else d
    let st1 := { st with trustedDevices := ds }
    let st2 := if eventType = LoginEventType.login then
        recordLoginEvent st1 now userId ip userAgent eventType
      else st1
    ({ isNewDevice := false, isTrusted := true, isNewIp := none }, st2)
  | none =>
    let isNewDevice := Option.isNone <| st.loginHistory.find? fun e =>
      decide (e.userId = userId) && decide (e.deviceFingerprint = fingerprint)
    let isNewIp := Option.isNone <| st.loginHistory.find? fun e =>
      decide (e.userId = userId) && decide (e.ipAddress = ip)
    let actualEventType :=
      if isNewDevice then LoginEventType.new_device
      else if isNewIp then LoginEventType.new_ip
      else eventType
    let st1 := recordLoginEvent st now userId ip userAgent actualEventType
    let st2 := if isNewDevice then createSecurityAlert st1 userId AlertType.new_device else st1
    let st3 := if isNewIp && !isNewDevice then createSecurityAlert st2 userId AlertType.new_location else st2
    ({ isNewDevice := isNewDevice, isTrusted := false, isNewIp := some isNewIp }, st3)

/-- The identity the middleware attaches to the request. -/
structure ReqIdentity where
  userId : String
  email : String
  name : String
deriving DecidableEq

/-- Successful outcome of authenticateJWT: the attached identity, plus the
rotated pair when a silent rotation happened. -/
structure AuthSuccess where
  identity : ReqIdentity
  newTokens : Option RotationResult
deriving DecidableEq

/-- authenticateJWT of the middleware.  Header parsing is abstracted: the
caller passes the bearer access token and the x-refresh-token header as
optional tokens, and the request fingerprint is computed from the user
agent exactly as the source does.  On access failure with a refresh
token present, rotation is attempted; any failure on that path is caught
and replaced by the generic bothTokensInvalid error.  On success the
token_refresh security event runs fire-and-forget (modelled as applied,
its failure cannot fail the request). -/
def authenticateJWT (st : DBState) (now : Nat)
    (accessToken refreshToken : Option SignedToken)
    (userAgent ipAddress : Option String) : Except AuthError AuthSuccess × DBState :=
  match accessToken with
  | none => (Except.error AuthError.noAuthHeader, st)
  | some atk =>
    match verifyAccessToken st now atk with
    | Except.ok payload =>
      (Except.ok { identity := { userId := payload.userId, email := payload.email, name := payload.name },
                   newTokens := none }, st)
    | Except.error _ =>
      match refreshToken with
      | none => (Except.error AuthError.accessExpiredNoRefresh, st)
      | some rtk =>
        let requestFingerprint := generateDeviceFingerprint userAgent
        match rotateRefreshToken st now rtk userAgent ipAddress (some requestFingerprint) with
        | (Except.ok rotationResult, st1) =>
          match verifyAccessToken st1 now rotationResult.accessToken with
          | Except.ok newPayload =>
            let st2 := (processAuthEvent st1 now newPayload.userId ipAddress userAgent
              LoginEventType.token_refresh).2
            (Except.ok { identity := { userId := newPayload.userId, email := newPayload.email,
                                       name := newPayload.name },
                         newTokens := some rotationResult }, st2)
          | Except.error _ => (Except.error AuthError.bothTokensInvalid, st1)
        | (Except.error _, st1) => (Except.error AuthError.bothTokensInvalid, st1)

/-- The operations the engine exposes, used to state store-wide
invariants: issuance, rotation, read-only verification, single / family /
principal-wide revocation, the principal epoch bump and access-token
blacklisting. -/
inductive EngineOp where
  | issuePair (userId email name : String) (deviceInfo ipAddress deviceFingerprint : Option String)
  | issueRefresh (userId : String) (deviceInfo ipAddress familyId deviceFingerprint : Option String)
  | rotate (tok : SignedToken) (deviceInfo ipAddress requestFingerprint : Option String)
  | verifyRefresh (tok : SignedToken)
  | revokeSingle (tok : SignedToken)
  | revokeFamily (familyId : String)
  | revokeAllForUser (userId : String)
  | bumpUserVersion (userId : String)
  | blacklistAccess (tok : SignedToken)
deriving DecidableEq

/-- The store reached by running one engine operation at one instant. -/
def applyOp (st : DBState) (now : Nat) : EngineOp → DBState
  | EngineOp.issuePair u e n di ip fp => (generateTokenPair st now u e n di ip fp).2
  | EngineOp.issueRefresh u di ip fam fp => (generateRefreshToken st now u di ip fam fp).2
  | EngineOp.rotate tok di ip rfp => (rotateRefreshToken st now tok di ip rfp).2
  | EngineOp.verifyRefresh tok => (verifyRefreshToken st now tok).2
  | EngineOp.revokeSingle tok => revokeRefreshToken st tok
  | EngineOp.revokeFamily fam => revokeTokenFamily st fam
  | EngineOp.revokeAllForUser u => revokeAllUserTokens st u
  | EngineOp.bumpUserVersion u => (incrementUserTokenVersion st u).2
  | EngineOp.blacklistAccess tok => blacklistAccessToken st now tok

/-- Row-level invariant preservation between two versions of the
refresh_tokens table: every row that existed before still exists (rows
are identified by their position, matching prisma row identity: updates
map rows in place and creates append), its familyId is unchanged, and a
revoked row stays revoked. -/
def recordsPreserve (ts ts2 : List RefreshTokenRecord) : Prop :=
  ∀ i : Nat, ∀ h : i < ts.length, ∃ h2 : i < ts2.length,
    (ts2.get ⟨i, h2⟩).familyId = (ts.get ⟨i, h⟩).familyId ∧
    ((ts.get ⟨i, h⟩).isRevoked = true → (ts2.get ⟨i, h2⟩).isRevoked = true)

/-- The grace-window condition of rotateRefreshToken step 4, as a
standalone decidable predicate: the stored record was rotated within the
last ROTATION_GRACE_MS, carries a successor reference, and that
successor resolves to a non-revoked, unexpired record. -/
def graceApplies (st : DBState) (now : Nat) (storedToken : RefreshTokenRecord) : Bool :=
  match storedToken.rotatedAt with
  | none => false
  | some rAt =>
    decide (now - rAt < ROTATION_GRACE_MS) &&
    (match storedToken.replacedByToken with
     | none => false
     | some succTok =>
       match st.refreshTokens.find? (fun x => decide (x.token = succTok) && !x.isRevoked) with
       | none => false
       | some replacementRecord => decide (now < replacementRecord.expiresAt))

deriving instance DecidableEq for Except

/-- The refresh_tokens row generateRefreshToken inserts, once the owner
lookup, family reuse and fingerprint reuse have been resolved. -/
def freshRecord (st : DBState) (now : Nat) (uid : String) (tv : Nat) (fam fp : String)
    (di ip : Option String) : RefreshTokenRecord :=
  { id := st.nextId, userId := uid, token := mkRefreshJwt now uid tv fam st.nextId,
    tokenVersion := tv, familyId := fam, deviceFingerprint := some fp,
    expiresAt := now + REFRESH_LIFETIME_MS, isRevoked := false, rotatedAt := none,
    replacedByToken := none, lastUsedAt := none, deviceInfo := di, ipAddress := ip }

/-- The row update applied by revokeAllUserTokens. -/
def bulkRevokeFor (uid : String) (x : RefreshTokenRecord) : RefreshTokenRecord :=
  if decide (x.userId = uid) && !x.isRevoked then { x with isRevoked := true } else x

/-- The user row update applied by incrementUserTokenVersion. -/
def bumpFor (uid : String) (x : UserRec) : UserRec :=
  if decide (x.id = uid) then { x with tokenVersion := x.tokenVersion + 1 } else x

/-- Demo owner row used by the concrete witnesses. -/
def demoUser : UserRec :=
  { id := "u1", email := "u1@example.com", name := some "User One", tokenVersion := 1 }

/-- Demo refresh JWT payload: family famA, epoch 1, expiry at t = 2000000. -/
def demoPayload : RefreshPayload :=
  { userId := "u1", tokenVersion := 1, fid := "famA", jti := "j0", exp := 2000000 }

/-- Demo successor payload for the grace-window witnesses. -/
def demoPayload2 : RefreshPayload :=
  { userId := "u1", tokenVersion := 1, fid := "famA", jti := "j1", exp := 3000000 }

/-- Demo access payload with 120 s of remaining lifetime at t = 0. -/
def demoAccessPayload : AccessPayload :=
  { userId := "u1", email := "u1@example.com", name := "User One", exp := 120000 }

/-- Demo freshly issued refresh row matching demoPayload. -/
def demoRecord : RefreshTokenRecord :=
  { id := 0, userId := "u1", token := SignedToken.refreshJwt demoPayload, tokenVersion := 1,
    familyId := "famA", deviceFingerprint := some "fpA", expiresAt := 2000000,
    isRevoked := false, rotatedAt := none, replacedByToken := none, lastUsedAt := none,
    deviceInfo := none, ipAddress := none }

/-- Demo already-rotated row: rotated at t = 1000 with a successor. -/
def demoRecOld : RefreshTokenRecord :=
  { id := 0, userId := "u1", token := SignedToken.refreshJwt demoPayload, tokenVersion := 1,
    familyId := "famA", deviceFingerprint := some "fpA", expiresAt := 2000000,
    isRevoked := false, rotatedAt := some 1000,
    replacedByToken := some (SignedToken.refreshJwt demoPayload2), lastUsedAt := some 1000,
    deviceInfo := none, ipAddress := none }

/-- Demo successor row of demoRecOld. -/
def demoRecNew : RefreshTokenRecord :=
  { id := 1, userId := "u1", token := SignedToken.refreshJwt demoPayload2, tokenVersion := 1,
    familyId := "famA", deviceFingerprint := some "fpA", expiresAt := 3000000,
    isRevoked := false, rotatedAt := none, replacedByToken := none, lastUsedAt := none,
    deviceInfo := none, ipAddress := none }

/-- Demo revoked-but-just-rotated row: revoked, rotated with a live
successor. -/
def demoRecOldRevoked : RefreshTokenRecord :=
  { demoRecOld with isRevoked := true }

/-- Demo revoked row (never rotated) that still carries fingerprint fpA. -/
def demoRecRevoked : RefreshTokenRecord :=
  { demoRecord with isRevoked := true }

/-- Demo store holding one user and one fresh refresh row. -/
def demoState : DBState :=
  { users := [demoUser], refreshTokens := [demoRecord], securityAlerts := [],
    loginHistory := [], trustedDevices := [], blacklist := [], nextId := 1 }

/-- Demo store after one rotation: old rotated row plus live successor. -/
def demoStateRotated : DBState :=
  { users := [demoUser], refreshTokens := [demoRecOld, demoRecNew], securityAlerts := [],
    loginHistory := [], trustedDevices := [], blacklist := [], nextId := 2 }

/-- Demo store where the old rotated row has additionally been revoked
individually while its successor stays live. -/
def demoStateRevokedInGrace : DBState :=
  { demoStateRotated with refreshTokens := [demoRecOldRevoked, demoRecNew] }

/-- Demo store holding only the revoked row. -/
def demoStateRevoked : DBState :=
  { demoState with refreshTokens := [demoRecRevoked] }


theorem recordsPreserve_refl (ts : List RefreshTokenRecord) : recordsPreserve ts ts := by
  intro i h
  exact ⟨h, rfl, fun hr => hr⟩

theorem recordsPreserve_map (f : RefreshTokenRecord → RefreshTokenRecord)
    (hf : ∀ r, (f r).familyId = r.familyId ∧ (r.isRevoked = true → (f r).isRevoked = true))
    (ts : List RefreshTokenRecord) : recordsPreserve ts (ts.map f) := by
  intro i h
  refine ⟨by simpa using h, ?_, ?_⟩
  · simp only [List.get_eq_getElem, List.getElem_map]
    exact (hf _).1
  · simp only [List.get_eq_getElem, List.getElem_map]
    exact (hf _).2

theorem recordsPreserve_append (ts extra : List RefreshTokenRecord) :
    recordsPreserve ts (ts ++ extra) := by
  intro i h
  refine ⟨by simp; omega, ?_, ?_⟩
  · simp only [List.get_eq_getElem]
    rw [List.getElem_append_left]
  · simp only [List.get_eq_getElem]
    rw [List.getElem_append_left]
    exact fun hr => hr

theorem recordsPreserve_trans {a b c : List RefreshTokenRecord}
    (h1 : recordsPreserve a b) (h2 : recordsPreserve b c) : recordsPreserve a c := by
  intro i h
  obtain ⟨hb, hfam1, hrev1⟩ := h1 i h
  obtain ⟨hc, hfam2, hrev2⟩ := h2 i hb
  exact ⟨hc, hfam2.trans hfam1, fun hr => hrev2 (hrev1 hr)⟩

theorem createSecurityAlert_refreshTokens (st : DBState) (u : String) (a : AlertType) :
    (createSecurityAlert st u a).refreshTokens = st.refreshTokens := rfl

theorem reuseTheftResponse_preserves (st : DBState) (r : RefreshTokenRecord) :
    recordsPreserve st.refreshTokens (reuseTheftResponse st r).2.refreshTokens := by
  unfold reuseTheftResponse
  rw [createSecurityAlert_refreshTokens]
  unfold revokeTokenFamily
  apply recordsPreserve_map
  intro x
  constructor
  · split <;> rfl
  · intro hr
    split <;> simp_all

theorem reuseResponse_preserves (st : DBState) (now : Nat) (r : RefreshTokenRecord) :
    recordsPreserve st.refreshTokens (reuseResponse st now r).2.refreshTokens := by
  unfold reuseResponse
  repeat' split
  all_goals first
    | exact reuseTheftResponse_preserves st r
    | exact recordsPreserve_refl _

theorem preserves_markRevokedById (ts : List RefreshTokenRecord) (i : Nat) :
    recordsPreserve ts
      (ts.map fun r => if decide (r.id = i) then { r with isRevoked := true } else r) := by
  apply recordsPreserve_map
  intro x
  constructor
  · split <;> rfl
  · intro hr
    split <;> simp_all

theorem preserves_revokeFamilyAlert (st : DBState) (fam uid : String) (a : AlertType) :
    recordsPreserve st.refreshTokens
      (createSecurityAlert (revokeTokenFamily st fam) uid a).refreshTokens := by
  rw [createSecurityAlert_refreshTokens]
  unfold revokeTokenFamily
  apply recordsPreserve_map
  intro x
  constructor
  · split <;> rfl
  · intro hr
    split <;> simp_all

theorem preserves_markRotatedAppend (ts : List RefreshTokenRecord)
    (rec : RefreshTokenRecord) (nt : SignedToken) (now i : Nat) :
    recordsPreserve ts
      ((ts ++ [rec]).map fun r => if decide (r.id = i) then
        { r with replacedByToken := some nt, rotatedAt := some now, lastUsedAt := some now }
      else r) := by
  refine recordsPreserve_trans (recordsPreserve_append ts [rec]) ?_
  apply recordsPreserve_map
  intro x
  constructor
  · split <;> rfl
  · intro hr
    split <;> simp_all

theorem rotateAfterLookup_preserves (st : DBState) (now : Nat) (r : RefreshTokenRecord)
    (u : UserRec) (di ip rfp : Option String) :
    recordsPreserve st.refreshTokens (rotateAfterLookup st now r u di ip rfp).2.refreshTokens := by
  unfold rotateAfterLookup
  repeat' split
  all_goals try dsimp only
  all_goals first
    | exact recordsPreserve_refl _
    | exact reuseResponse_preserves st now r
    | exact preserves_markRevokedById st.refreshTokens r.id
    | exact preserves_revokeFamilyAlert st r.familyId r.userId AlertType.device_mismatch
    | exact preserves_markRotatedAppend st.refreshTokens _ _ now r.id

theorem rotateRefreshToken_preserves (st : DBState) (now : Nat) (tok : SignedToken)
    (di ip rfp : Option String) :
    recordsPreserve st.refreshTokens (rotateRefreshToken st now tok di ip rfp).2.refreshTokens := by
  unfold rotateRefreshToken
  repeat' split
  all_goals first
    | exact recordsPreserve_refl _
    | apply rotateAfterLookup_preserves

theorem preserves_touchLastUsed (ts : List RefreshTokenRecord) (now i : Nat) :
    recordsPreserve ts
      (ts.map fun r => if decide (r.id = i) then { r with lastUsedAt := some now } else r) := by
  apply recordsPreserve_map
  intro x
  constructor
  · split <;> rfl
  · intro hr
    split <;> simp_all

theorem verifyRefreshToken_preserves (st : DBState) (now : Nat) (tok : SignedToken) :
    recordsPreserve st.refreshTokens (verifyRefreshToken st now tok).2.refreshTokens := by
  unfold verifyRefreshToken
  repeat' split
  all_goals try dsimp only
  all_goals first
    | exact recordsPreserve_refl _
    | exact preserves_touchLastUsed st.refreshTokens now _

theorem preserves_revokeAllUser (st : DBState) (uid : String) :
    recordsPreserve st.refreshTokens (revokeAllUserTokens st uid).refreshTokens := by
  unfold revokeAllUserTokens
  apply recordsPreserve_map
  intro x
  constructor
  · split <;> rfl
  · intro hr
    split <;> simp_all

/-- C7.  Every engine operation (issuance, rotation, verification, single /
family / principal-wide revocation, epoch bump, blacklisting) preserves
the two row invariants of refresh_tokens: the familyId of an existing
row is never modified, and the isRevoked flag never reverts to false. -/
theorem engine_ops_preserve_record_invariants (st : DBState) (now : Nat) (op : EngineOp) :
    recordsPreserve st.refreshTokens (applyOp st now op).refreshTokens := by
  cases op with
  | issuePair u e n di ip fp =>
    simp only [applyOp]
    unfold generateTokenPair generateRefreshToken
    exact recordsPreserve_append _ _
  | issueRefresh u di ip fam fp =>
    simp only [applyOp]
    unfold generateRefreshToken
    exact recordsPreserve_append _ _
  | rotate tok di ip rfp => exact rotateRefreshToken_preserves st now tok di ip rfp
  | verifyRefresh tok => exact verifyRefreshToken_preserves st now tok
  | revokeSingle tok =>
    simp only [applyOp]
    unfold revokeRefreshToken
    apply recordsPreserve_map
    intro x
    constructor
    · split <;> rfl
    · intro hr
      split <;> simp_all
  | revokeFamily fam =>
    simp only [applyOp]
    unfold revokeTokenFamily
    apply recordsPreserve_map
    intro x
    constructor
    · split <;> rfl
    · intro hr
      split <;> simp_all
  | revokeAllForUser u =>
    simp only [applyOp]
    exact preserves_revokeAllUser st u
  | bumpUserVersion u =>
    simp only [applyOp]
    unfold incrementUserTokenVersion
    repeat' split
    · exact recordsPreserve_refl _
    · exact preserves_revokeAllUser _ u
  | blacklistAccess tok => exact recordsPreserve_refl _

/-- Lookup step of rotation: with a signature-valid unexpired refresh JWT
whose row and owner resolve, rotation reduces to the post-lookup state
machine. -/
theorem rotate_lookup_step (st : DBState) (now : Nat) (p : RefreshPayload)
    (r : RefreshTokenRecord) (u : UserRec) (di ip rfp : Option String)
    (hjwt : now < p.exp)
    (hfind : st.refreshTokens.find? (fun x => decide (x.token = SignedToken.refreshJwt p)) = some r)
    (huser : st.users.find? (fun x => decide (x.id = r.userId)) = some u) :
    rotateRefreshToken st now (SignedToken.refreshJwt p) di ip rfp =
      rotateAfterLookup st now r u di ip rfp := by
  have hne : ¬ p.exp ≤ now := by omega
  simp only [rotateRefreshToken, if_neg hne, hfind, huser]

/-- Happy-path step: a live record (unexpired, current epoch, not revoked,
no successor, no fingerprint objection) rotates into a new same-family
record and the old row is marked replaced / rotated / last-used. -/
theorem rotateAfterLookup_happy (st : DBState) (now : Nat) (r : RefreshTokenRecord)
    (u : UserRec) (di ip rfp : Option String)
    (hdbexp : ¬ r.expiresAt < now)
    (hnver : ¬ r.tokenVersion < u.tokenVersion)
    (hrev : r.isRevoked = false)
    (hsucc : r.replacedByToken = none)
    (hfpskip : ¬ (strTruthy r.deviceFingerprint = true ∧ strTruthy rfp = true ∧
        r.deviceFingerprint ≠ rfp)) :
    rotateAfterLookup st now r u di ip rfp =
      (let gen := generateRefreshToken st now r.userId di ip (some r.familyId)
         (jsOrStr r.deviceFingerprint rfp)
       let ts2 := gen.2.refreshTokens.map fun x =>
         if decide (x.id = r.id) then
           { x with replacedByToken := some gen.1, rotatedAt := some now, lastUsedAt := some now }
         else x
       (Except.ok { accessToken := generateAccessToken now u.id u.email (jsOrEmpty u.name),
                    refreshToken := gen.1 }, { gen.2 with refreshTokens := ts2 })) := by
  have hreuse : ¬ (r.isRevoked = true ∨ r.replacedByToken.isSome = true) := by
    simp [hrev, hsucc]
  simp only [rotateAfterLookup, if_neg hdbexp, if_neg hnver, if_neg hreuse, if_neg hfpskip]

/-- Reuse entry step: when the record is revoked or already replaced (and
the earlier checks pass), rotation runs the reuse/grace response. -/
theorem rotateAfterLookup_reuse (st : DBState) (now : Nat) (r : RefreshTokenRecord)
    (u : UserRec) (di ip rfp : Option String)
    (hdbexp : ¬ r.expiresAt < now)
    (hnver : ¬ r.tokenVersion < u.tokenVersion)
    (hreuse : r.isRevoked = true ∨ r.replacedByToken.isSome = true) :
    rotateAfterLookup st now r u di ip rfp = reuseResponse st now r := by
  simp only [rotateAfterLookup, if_neg hdbexp, if_neg hnver, if_pos hreuse]

/-- Epoch step: an outdated tokenVersion fails with sessionInvalidated and
marks the presented row revoked, before any reuse or fingerprint check. -/
theorem rotateAfterLookup_epoch (st : DBState) (now : Nat) (r : RefreshTokenRecord)
    (u : UserRec) (di ip rfp : Option String)
    (hdbexp : ¬ r.expiresAt < now)
    (hlt : r.tokenVersion < u.tokenVersion) :
    rotateAfterLookup st now r u di ip rfp =
      (Except.error AuthError.sessionInvalidated,
       { st with refreshTokens := st.refreshTokens.map fun x =>
           if decide (x.id = r.id) then { x with isRevoked := true } else x }) := by
  simp only [rotateAfterLookup, if_neg hdbexp, if_pos hlt]

/-- When the grace-window condition fails, the reuse response is the theft
response. -/
theorem reuseResponse_of_no_grace (st : DBState) (now : Nat) (r : RefreshTokenRecord)
    (h : graceApplies st now r = false) :
    reuseResponse st now r = reuseTheftResponse st r := by
  unfold graceApplies at h
  unfold reuseResponse
  repeat' split
  all_goals simp_all

/-- After revokeTokenFamily, every row of that family is revoked. -/
theorem revokeTokenFamily_marks (st : DBState) (fam : String) :
    ∀ x ∈ (revokeTokenFamily st fam).refreshTokens, x.familyId = fam → x.isRevoked = true := by
  intro x hx hfam
  unfold revokeTokenFamily at hx
  rcases List.mem_map.mp hx with ⟨y, hy, hxy⟩
  subst hxy
  cases hb : (decide (y.familyId = fam) && !y.isRevoked) with
  | true => simp [hb]
  | false =>
    simp [hb] at hfam ⊢
    simp_all

/-- After the mark-revoked-by-id update, every row with that id is revoked. -/
theorem map_markById_marks (ts : List RefreshTokenRecord) (i : Nat) :
    ∀ x ∈ ts.map (fun y => if decide (y.id = i) then { y with isRevoked := true } else y),
      x.id = i → x.isRevoked = true := by
  intro x hx hid
  rcases List.mem_map.mp hx with ⟨y, hy, hxy⟩
  subst hxy
  by_cases hb : y.id = i
  · simp [hb]
  · rw [if_neg (by simpa using hb)] at hid
    exact absurd hid hb

theorem generateRefreshToken_eq (st : DBState) (now : Nat) (uid : String)
    (di ip : Option String) (fam fp : String) (u : UserRec)
    (huser : st.users.find? (fun x => decide (x.id = uid)) = some u)
    (hvpos : u.tokenVersion ≠ 0)
    (hfam : fam ≠ "")
    (hfpne : fp ≠ "") :
    generateRefreshToken st now uid di ip (some fam) (some fp) =
      (mkRefreshJwt now uid u.tokenVersion fam st.nextId,
       { st with refreshTokens := st.refreshTokens ++ [freshRecord st now uid u.tokenVersion fam fp di ip],
                 nextId := st.nextId + 1 }) := by
  simp only [generateRefreshToken, huser, Option.map, jsOrOne, jsOrStr, strTruthy,
    if_neg hvpos, if_neg hfam, if_neg hfpne, ite_true, freshRecord]

/-- find? commutes with an in-place update that does not change the
searched field. -/
theorem find?_map_of_pred_invariant {α : Type} (g : α → α) (p : α → Bool)
    (hp : ∀ x, p (g x) = p x) :
    ∀ l : List α, (l.map g).find? p = (l.find? p).map g := by
  intro l
  induction l with
  | nil => rfl
  | cons x xs ih =>
    by_cases hx : p x = true
    · rw [List.map_cons, List.find?_cons_of_pos _ (by rw [hp]; exact hx),
        List.find?_cons_of_pos _ hx]
      rfl
    · rw [List.map_cons, List.find?_cons_of_neg _ (by rw [hp]; simpa using hx),
        List.find?_cons_of_neg _ (by simpa using hx), ih]

/-- incrementUserTokenVersion, fully reduced when the user row exists. -/
theorem incrementUserTokenVersion_eq (st : DBState) (uid : String) (u : UserRec)
    (huser : st.users.find? (fun x => decide (x.id = uid)) = some u) :
    incrementUserTokenVersion st uid =
      (Except.ok (u.tokenVersion + 1),
       { st with users := st.users.map (bumpFor uid),
                 refreshTokens := st.refreshTokens.map (bulkRevokeFor uid) }) := by
  simp only [incrementUserTokenVersion, huser]
  rfl

theorem recordLoginEvent_securityAlerts (st : DBState) (now : Nat) (uid ip2 : String)
    (ua : Option String) (et : LoginEventType) :
    (recordLoginEvent st now uid ip2 ua et).securityAlerts = st.securityAlerts := rfl

/-- C1.  A freshly issued refresh credential (not revoked, no successor,
unexpired, current epoch) presented with its own fingerprint rotates
successfully: the result is a new access token for the owner plus a new
refresh record in the same family, carrying the same epoch-at-issue and
the same fingerprint, while the old record is updated with the successor
reference, rotatedAt and lastUsedAt, and its revoked flag stays false. -/
theorem rotate_fresh_token_success (st : DBState) (now : Nat) (p : RefreshPayload)
    (r : RefreshTokenRecord) (u : UserRec) (di ip : Option String) (fp : String)
    (hfind : st.refreshTokens.find? (fun x => decide (x.token = SignedToken.refreshJwt p)) = some r)
    (huser : st.users.find? (fun x => decide (x.id = r.userId)) = some u)
    (hjwt : now < p.exp)
    (hdbexp : ¬ r.expiresAt < now)
    (hver : r.tokenVersion = u.tokenVersion)
    (hvpos : u.tokenVersion ≠ 0)
    (hrev : r.isRevoked = false)
    (hsucc : r.replacedByToken = none)
    (hfp : r.deviceFingerprint = some fp)
    (hfpne : fp ≠ "")
    (hfam : r.familyId ≠ "")
    (hid : r.id ≠ st.nextId) :
    ∃ newTok : SignedToken, ∃ newRec : RefreshTokenRecord, ∃ st2 : DBState,
      rotateRefreshToken st now (SignedToken.refreshJwt p) di ip (some fp) =
        (Except.ok { accessToken := generateAccessToken now u.id u.email (jsOrEmpty u.name),
                     refreshToken := newTok }, st2) ∧
      newRec ∈ st2.refreshTokens ∧
      newRec.token = newTok ∧
      newRec.familyId = r.familyId ∧
      newRec.tokenVersion = r.tokenVersion ∧
      newRec.deviceFingerprint = r.deviceFingerprint ∧
      newRec.isRevoked = false ∧
      { r with replacedByToken := some newTok, rotatedAt := some now,
               lastUsedAt := some now } ∈ st2.refreshTokens ∧
      ({ r with replacedByToken := some newTok, rotatedAt := some now,
                lastUsedAt := some now }).isRevoked = false := by
  have hnver : ¬ r.tokenVersion < u.tokenVersion := by omega
  have hfpskip : ¬ (strTruthy r.deviceFingerprint = true ∧ strTruthy (some fp) = true ∧
      r.deviceFingerprint ≠ some fp) := by
    simp [hfp]
  rw [rotate_lookup_step st now p r u di ip (some fp) hjwt hfind huser,
    rotateAfterLookup_happy st now r u di ip (some fp) hdbexp hnver hrev hsucc hfpskip]
  have hjs : jsOrStr r.deviceFingerprint (some fp) = some fp := by
    simp [hfp, jsOrStr, strTruthy, hfpne]
  rw [hjs, generateRefreshToken_eq st now r.userId di ip r.familyId fp u huser hvpos hfam hfpne]
  have hidne : decide (st.nextId = r.id) = false := by
    simp
    omega
  refine ⟨mkRefreshJwt now r.userId u.tokenVersion r.familyId st.nextId,
    freshRecord st now r.userId u.tokenVersion r.familyId fp di ip, _, rfl, ?_, rfl, rfl, ?_, ?_, rfl, ?_, ?_⟩
  · apply List.mem_map.mpr
    refine ⟨freshRecord st now r.userId u.tokenVersion r.familyId fp di ip, by simp, ?_⟩
    simp [freshRecord, hidne]
  · exact hver.symm
  · exact hfp.symm
  · apply List.mem_map.mpr
    refine ⟨r, ?_, ?_⟩
    · exact List.mem_append_left _ (List.mem_of_find?_eq_some hfind)
    · simp
  · exact hrev

theorem rotate_fresh_token_success_witness :
    ∃ newTok : SignedToken, ∃ newRec : RefreshTokenRecord, ∃ st2 : DBState,
      rotateRefreshToken demoState 1000 (SignedToken.refreshJwt demoPayload) none none (some "fpA") =
        (Except.ok { accessToken := generateAccessToken 1000 demoUser.id demoUser.email (jsOrEmpty demoUser.name),
                     refreshToken := newTok }, st2) ∧
      newRec ∈ st2.refreshTokens ∧
      newRec.token = newTok ∧
      newRec.familyId = demoRecord.familyId ∧
      newRec.tokenVersion = demoRecord.tokenVersion ∧
      newRec.deviceFingerprint = demoRecord.deviceFingerprint ∧
      newRec.isRevoked = false ∧
      { demoRecord with replacedByToken := some newTok, rotatedAt := some 1000,
                        lastUsedAt := some 1000 } ∈ st2.refreshTokens ∧
      ({ demoRecord with replacedByToken := some newTok, rotatedAt := some 1000,
                         lastUsedAt := some 1000 }).isRevoked = false :=
  rotate_fresh_token_success demoState 1000 demoPayload demoRecord demoUser none none "fpA"
    (by decide) (by decide) (by decide) (by decide) (by decide) (by decide) (by decide)
    (by decide) (by decide) (by decide) (by decide) (by decide)

/-- C3.  Grace window: a record rotated less than ROTATION_GRACE_MS ago
whose successor resolves to a non-revoked, unexpired record rotates
successfully into a fresh access token paired with the existing
successor refresh token, and the store is left completely unchanged: no
new record, no revocation, no alert. -/
theorem rotate_grace_window_returns_successor (st : DBState) (now rAt : Nat)
    (p : RefreshPayload) (r rep : RefreshTokenRecord) (u ru : UserRec)
    (succTok : SignedToken) (di ip rfp : Option String)
    (hfind : st.refreshTokens.find? (fun x => decide (x.token = SignedToken.refreshJwt p)) = some r)
    (huser : st.users.find? (fun x => decide (x.id = r.userId)) = some u)
    (hjwt : now < p.exp)
    (hdbexp : ¬ r.expiresAt < now)
    (hnver : ¬ r.tokenVersion < u.tokenVersion)
    (hrot : r.rotatedAt = some rAt)
    (hgrace : now - rAt < ROTATION_GRACE_MS)
    (hsucc : r.replacedByToken = some succTok)
    (hrep : st.refreshTokens.find? (fun x => decide (x.token = succTok) && !x.isRevoked) = some rep)
    (hrepexp : now < rep.expiresAt)
    (hruser : st.users.find? (fun x => decide (x.id = rep.userId)) = some ru) :
    rotateRefreshToken st now (SignedToken.refreshJwt p) di ip rfp =
      (Except.ok { accessToken := generateAccessToken now ru.id ru.email (jsOrEmpty ru.name),
                   refreshToken := rep.token }, st) := by
  rw [rotate_lookup_step st now p r u di ip rfp hjwt hfind huser,
    rotateAfterLookup_reuse st now r u di ip rfp hdbexp hnver (Or.inr (by simp [hsucc]))]
  simp only [reuseResponse, hrot, if_pos hgrace, hsucc, hrep, if_pos hrepexp, hruser]

theorem rotate_grace_window_returns_successor_witness :
    rotateRefreshToken demoStateRotated 5000 (SignedToken.refreshJwt demoPayload) none none none =
      (Except.ok { accessToken := generateAccessToken 5000 demoUser.id demoUser.email (jsOrEmpty demoUser.name),
                   refreshToken := demoRecNew.token }, demoStateRotated) :=
  rotate_grace_window_returns_successor demoStateRotated 5000 1000 demoPayload demoRecOld
    demoRecNew demoUser demoUser (SignedToken.refreshJwt demoPayload2) none none none
    (by decide) (by decide) (by decide) (by decide) (by decide) (by decide) (by decide)
    (by decide) (by decide) (by decide) (by decide)

/-- C2 (amended).  A record that is revoked or already carries a successor
reference, when the grace window does not apply (no rotatedAt within the
last 10 s resolving to a live successor), fails rotation with
tokenReuseDetected; every row of its family is revoked and exactly one
token_reuse alert is appended for the owner. -/
theorem rotate_reuse_theft_detected (st : DBState) (now : Nat) (p : RefreshPayload)
    (r : RefreshTokenRecord) (u : UserRec) (di ip rfp : Option String)
    (hfind : st.refreshTokens.find? (fun x => decide (x.token = SignedToken.refreshJwt p)) = some r)
    (huser : st.users.find? (fun x => decide (x.id = r.userId)) = some u)
    (hjwt : now < p.exp)
    (hdbexp : ¬ r.expiresAt < now)
    (hnver : ¬ r.tokenVersion < u.tokenVersion)
    (hreuse : r.isRevoked = true ∨ r.replacedByToken.isSome = true)
    (hnograce : graceApplies st now r = false) :
    rotateRefreshToken st now (SignedToken.refreshJwt p) di ip rfp =
      (Except.error AuthError.tokenReuseDetected,
       createSecurityAlert (revokeTokenFamily st r.familyId) r.userId AlertType.token_reuse) ∧
    (∀ x ∈ (createSecurityAlert (revokeTokenFamily st r.familyId) r.userId
        AlertType.token_reuse).refreshTokens,
      x.familyId = r.familyId → x.isRevoked = true) ∧
    (createSecurityAlert (revokeTokenFamily st r.familyId) r.userId
        AlertType.token_reuse).securityAlerts =
      st.securityAlerts ++ [{ userId := r.userId, alertType := AlertType.token_reuse }] := by
  refine ⟨?_, ?_, rfl⟩
  · rw [rotate_lookup_step st now p r u di ip rfp hjwt hfind huser,
      rotateAfterLookup_reuse st now r u di ip rfp hdbexp hnver hreuse,
      reuseResponse_of_no_grace st now r hnograce]
    rfl
  · rw [createSecurityAlert_refreshTokens]
    exact revokeTokenFamily_marks st r.familyId

/-- Demo already-rotated row presented again long after the grace window. -/
theorem rotate_reuse_theft_detected_witness :
    rotateRefreshToken demoStateRotated 20000 (SignedToken.refreshJwt demoPayload) none none none =
      (Except.error AuthError.tokenReuseDetected,
       createSecurityAlert (revokeTokenFamily demoStateRotated demoRecOld.familyId)
         demoRecOld.userId AlertType.token_reuse) ∧
    (∀ x ∈ (createSecurityAlert (revokeTokenFamily demoStateRotated demoRecOld.familyId)
        demoRecOld.userId AlertType.token_reuse).refreshTokens,
      x.familyId = demoRecOld.familyId → x.isRevoked = true) ∧
    (createSecurityAlert (revokeTokenFamily demoStateRotated demoRecOld.familyId)
        demoRecOld.userId AlertType.token_reuse).securityAlerts =
      demoStateRotated.securityAlerts ++
        [{ userId := demoRecOld.userId, alertType := AlertType.token_reuse }] :=
  rotate_reuse_theft_detected demoStateRotated 20000 demoPayload demoRecOld demoUser
    none none none (by decide) (by decide) (by decide) (by decide) (by decide)
    (Or.inr (by decide)) (by decide)

/-- C2 (counterexample to the claim as stated).  A revoked record inside
the grace window with a live successor does NOT fail with
tokenReuseDetected: rotation succeeds through the grace path. -/
theorem rotate_revoked_record_grace_counterexample :
    demoStateRevokedInGrace.refreshTokens.find?
        (fun x => decide (x.token = SignedToken.refreshJwt demoPayload)) = some demoRecOldRevoked ∧
    demoRecOldRevoked.isRevoked = true ∧
    (rotateRefreshToken demoStateRevokedInGrace 5000 (SignedToken.refreshJwt demoPayload)
        none none none).1 =
      Except.ok { accessToken := generateAccessToken 5000 demoUser.id demoUser.email
                    (jsOrEmpty demoUser.name),
                  refreshToken := demoRecNew.token } ∧
    (rotateRefreshToken demoStateRevokedInGrace 5000 (SignedToken.refreshJwt demoPayload)
        none none none).1 ≠ Except.error AuthError.tokenReuseDetected := by
  refine ⟨by decide, by decide, by decide, by decide⟩

/-- C4.  After incrementUserTokenVersion bumps the principal epoch,
rotating any refresh token issued at the previous epoch or earlier
(revoked or not, fingerprint matching or not) fails with
sessionInvalidated and leaves that record revoked: the epoch check runs
before the reuse and fingerprint checks. -/
theorem epoch_bump_invalidates_rotation (st : DBState) (now : Nat) (p : RefreshPayload)
    (r : RefreshTokenRecord) (u : UserRec) (di ip rfp : Option String)
    (hfind : st.refreshTokens.find? (fun x => decide (x.token = SignedToken.refreshJwt p)) = some r)
    (huser : st.users.find? (fun x => decide (x.id = r.userId)) = some u)
    (hjwt : now < p.exp)
    (hdbexp : ¬ r.expiresAt < now)
    (hver : r.tokenVersion ≤ u.tokenVersion) :
    (incrementUserTokenVersion st r.userId).1 = Except.ok (u.tokenVersion + 1) ∧
    (rotateRefreshToken (incrementUserTokenVersion st r.userId).2 now
        (SignedToken.refreshJwt p) di ip rfp).1 = Except.error AuthError.sessionInvalidated ∧
    ∀ x ∈ (rotateRefreshToken (incrementUserTokenVersion st r.userId).2 now
        (SignedToken.refreshJwt p) di ip rfp).2.refreshTokens,
      x.id = r.id → x.isRevoked = true := by
  have huid := List.find?_some huser
  have huid2 : u.id = r.userId := of_decide_eq_true huid
  have hgtok : ∀ x, (bulkRevokeFor r.userId x).token = x.token := by
    intro x
    unfold bulkRevokeFor
    split <;> rfl
  have hbid : ∀ x, (bumpFor r.userId x).id = x.id := by
    intro x
    unfold bumpFor
    split <;> rfl
  rw [incrementUserTokenVersion_eq st r.userId u huser]
  have hfind1 :
      (st.refreshTokens.map (bulkRevokeFor r.userId)).find?
        (fun x => decide (x.token = SignedToken.refreshJwt p)) =
      some (bulkRevokeFor r.userId r) := by
    rw [find?_map_of_pred_invariant (bulkRevokeFor r.userId) _ (fun x => by rw [hgtok x]),
      hfind]
    rfl
  have hguid : (bulkRevokeFor r.userId r).userId = r.userId := by
    unfold bulkRevokeFor
    split <;> rfl
  have huser1 :
      (st.users.map (bumpFor r.userId)).find?
        (fun x => decide (x.id = (bulkRevokeFor r.userId r).userId)) =
      some (bumpFor r.userId u) := by
    rw [hguid, find?_map_of_pred_invariant (bumpFor r.userId) _ (fun x => by rw [hbid x]),
      huser]
    rfl
  have hlt : (bulkRevokeFor r.userId r).tokenVersion < (bumpFor r.userId u).tokenVersion := by
    have h1 : (bulkRevokeFor r.userId r).tokenVersion = r.tokenVersion := by
      unfold bulkRevokeFor
      split <;> rfl
    have h2 : (bumpFor r.userId u).tokenVersion = u.tokenVersion + 1 := by
      unfold bumpFor
      rw [if_pos huid]
    omega
  have hdbexp1 : ¬ (bulkRevokeFor r.userId r).expiresAt < now := by
    have h1 : (bulkRevokeFor r.userId r).expiresAt = r.expiresAt := by
      unfold bulkRevokeFor
      split <;> rfl
    omega
  have hrid : (bulkRevokeFor r.userId r).id = r.id := by
    unfold bulkRevokeFor
    split <;> rfl
  rw [rotate_lookup_step _ now p (bulkRevokeFor r.userId r) (bumpFor r.userId u) di ip rfp
      hjwt hfind1 huser1,
    rotateAfterLookup_epoch _ now (bulkRevokeFor r.userId r) (bumpFor r.userId u) di ip rfp
      hdbexp1 hlt]
  refine ⟨rfl, rfl, ?_⟩
  rw [hrid]
  exact map_markById_marks _ r.id

theorem epoch_bump_invalidates_rotation_witness :
    (incrementUserTokenVersion demoState demoRecord.userId).1 =
      Except.ok (demoUser.tokenVersion + 1) ∧
    (rotateRefreshToken (incrementUserTokenVersion demoState demoRecord.userId).2 1000
        (SignedToken.refreshJwt demoPayload) none none none).1 =
      Except.error AuthError.sessionInvalidated ∧
    ∀ x ∈ (rotateRefreshToken (incrementUserTokenVersion demoState demoRecord.userId).2 1000
        (SignedToken.refreshJwt demoPayload) none none none).2.refreshTokens,
      x.id = demoRecord.id → x.isRevoked = true :=
  epoch_bump_invalidates_rotation demoState 1000 demoPayload demoRecord demoUser
    none none none (by decide) (by decide) (by decide) (by decide) (by decide)

/-- C5 (amended).  For a rotation request that passes the epoch and reuse
checks (record live, unexpired, current epoch), a stored fingerprint
that is present and differs from a present request fingerprint fails
with deviceMismatch, revokes the whole family and appends one
device_mismatch alert for the owner. -/
theorem rotate_fingerprint_mismatch (st : DBState) (now : Nat) (p : RefreshPayload)
    (r : RefreshTokenRecord) (u : UserRec) (di ip : Option String) (sfp qfp : String)
    (hfind : st.refreshTokens.find? (fun x => decide (x.token = SignedToken.refreshJwt p)) = some r)
    (huser : st.users.find? (fun x => decide (x.id = r.userId)) = some u)
    (hjwt : now < p.exp)
    (hdbexp : ¬ r.expiresAt < now)
    (hnver : ¬ r.tokenVersion < u.tokenVersion)
    (hrev : r.isRevoked = false)
    (hsucc : r.replacedByToken = none)
    (hsfp : r.deviceFingerprint = some sfp)
    (hsfpne : sfp ≠ "")
    (hqne : qfp ≠ "")
    (hdiff : sfp ≠ qfp) :
    rotateRefreshToken st now (SignedToken.refreshJwt p) di ip (some qfp) =
      (Except.error AuthError.deviceMismatch,
       createSecurityAlert (revokeTokenFamily st r.familyId) r.userId AlertType.device_mismatch) ∧
    (∀ x ∈ (createSecurityAlert (revokeTokenFamily st r.familyId) r.userId
        AlertType.device_mismatch).refreshTokens,
      x.familyId = r.familyId → x.isRevoked = true) ∧
    (createSecurityAlert (revokeTokenFamily st r.familyId) r.userId
        AlertType.device_mismatch).securityAlerts =
      st.securityAlerts ++ [{ userId := r.userId, alertType := AlertType.device_mismatch }] := by
  have hreuse : ¬ (r.isRevoked = true ∨ r.replacedByToken.isSome = true) := by
    simp [hrev, hsucc]
  have hcond : strTruthy r.deviceFingerprint = true ∧ strTruthy (some qfp) = true ∧
      r.deviceFingerprint ≠ some qfp := by
    refine ⟨by simp [hsfp, strTruthy, hsfpne], by simp [strTruthy, hqne], ?_⟩
    simp [hsfp, hdiff]
  refine ⟨?_, ?_, rfl⟩
  · rw [rotate_lookup_step st now p r u di ip (some qfp) hjwt hfind huser]
    simp only [rotateAfterLookup, if_neg hdbexp, if_neg hnver, if_neg hreuse, if_pos hcond]
  · rw [createSecurityAlert_refreshTokens]
    exact revokeTokenFamily_marks st r.familyId

theorem rotate_fingerprint_mismatch_witness :
    rotateRefreshToken demoState 1000 (SignedToken.refreshJwt demoPayload) none none (some "fpB") =
      (Except.error AuthError.deviceMismatch,
       createSecurityAlert (revokeTokenFamily demoState demoRecord.familyId)
         demoRecord.userId AlertType.device_mismatch) ∧
    (∀ x ∈ (createSecurityAlert (revokeTokenFamily demoState demoRecord.familyId)
        demoRecord.userId AlertType.device_mismatch).refreshTokens,
      x.familyId = demoRecord.familyId → x.isRevoked = true) ∧
    (createSecurityAlert (revokeTokenFamily demoState demoRecord.familyId)
        demoRecord.userId AlertType.device_mismatch).securityAlerts =
      demoState.securityAlerts ++
        [{ userId := demoRecord.userId, alertType := AlertType.device_mismatch }] :=
  rotate_fingerprint_mismatch demoState 1000 demoPayload demoRecord demoUser none none
    "fpA" "fpB" (by decide) (by decide) (by decide) (by decide) (by decide) (by decide)
    (by decide) (by decide) (by decide) (by decide) (by decide)

/-- C5 (counterexample to the claim as stated).  A fingerprint mismatch is
NOT independent of the other validity checks: on a revoked record the
reuse check wins and rotation fails with tokenReuseDetected, not
deviceMismatch. -/
theorem fingerprint_mismatch_not_independent_counterexample :
    demoRecRevoked.deviceFingerprint = some "fpA" ∧
    ("fpA" : String) ≠ "fpB" ∧
    (rotateRefreshToken demoStateRevoked 1000 (SignedToken.refreshJwt demoPayload)
        none none (some "fpB")).1 = Except.error AuthError.tokenReuseDetected ∧
    (rotateRefreshToken demoStateRevoked 1000 (SignedToken.refreshJwt demoPayload)
        none none (some "fpB")).1 ≠ Except.error AuthError.deviceMismatch := by
  refine ⟨by decide, by decide, by decide, by decide⟩

/-- C10.  When the request fingerprint is absent (undefined or the empty
string, both falsy in the source), the device-mismatch check is skipped
even though the stored record carries a fingerprint: rotation proceeds
to the happy path and never fails with deviceMismatch. -/
theorem rotate_absent_fingerprint_skips_mismatch (st : DBState) (now : Nat)
    (p : RefreshPayload) (r : RefreshTokenRecord) (u : UserRec)
    (di ip rfp : Option String) (sfp : String)
    (hfind : st.refreshTokens.find? (fun x => decide (x.token = SignedToken.refreshJwt p)) = some r)
    (huser : st.users.find? (fun x => decide (x.id = r.userId)) = some u)
    (hjwt : now < p.exp)
    (hdbexp : ¬ r.expiresAt < now)
    (hver : r.tokenVersion = u.tokenVersion)
    (hvpos : u.tokenVersion ≠ 0)
    (hrev : r.isRevoked = false)
    (hsucc : r.replacedByToken = none)
    (hsfp : r.deviceFingerprint = some sfp)
    (hsfpne : sfp ≠ "")
    (hfam : r.familyId ≠ "")
    (hrfp : strTruthy rfp = false) :
    (rotateRefreshToken st now (SignedToken.refreshJwt p) di ip rfp).1 =
      Except.ok { accessToken := generateAccessToken now u.id u.email (jsOrEmpty u.name),
                  refreshToken := mkRefreshJwt now r.userId u.tokenVersion r.familyId st.nextId } ∧
    (rotateRefreshToken st now (SignedToken.refreshJwt p) di ip rfp).1 ≠
      Except.error AuthError.deviceMismatch := by
  have hnver : ¬ r.tokenVersion < u.tokenVersion := by omega
  have hfpskip : ¬ (strTruthy r.deviceFingerprint = true ∧ strTruthy rfp = true ∧
      r.deviceFingerprint ≠ rfp) := by
    simp [hrfp]
  have hjs : jsOrStr r.deviceFingerprint rfp = some sfp := by
    simp [hsfp, jsOrStr, strTruthy, hsfpne]
  rw [rotate_lookup_step st now p r u di ip rfp hjwt hfind huser,
    rotateAfterLookup_happy st now r u di ip rfp hdbexp hnver hrev hsucc hfpskip]
  rw [hjs, generateRefreshToken_eq st now r.userId di ip r.familyId sfp u huser hvpos hfam hsfpne]
  exact ⟨rfl, by simp⟩

theorem rotate_absent_fingerprint_skips_mismatch_witness :
    (rotateRefreshToken demoState 1000 (SignedToken.refreshJwt demoPayload) none none none).1 =
      Except.ok { accessToken := generateAccessToken 1000 demoUser.id demoUser.email
                    (jsOrEmpty demoUser.name),
                  refreshToken := mkRefreshJwt 1000 demoRecord.userId demoUser.tokenVersion
                    demoRecord.familyId demoState.nextId } ∧
    (rotateRefreshToken demoState 1000 (SignedToken.refreshJwt demoPayload) none none none).1 ≠
      Except.error AuthError.deviceMismatch :=
  rotate_absent_fingerprint_skips_mismatch demoState 1000 demoPayload demoRecord demoUser
    none none none "fpA" (by decide) (by decide) (by decide) (by decide) (by decide)
    (by decide) (by decide) (by decide) (by decide) (by decide) (by decide) (by decide)

/-- C6 (amended).  When access verification fails and rotation of the
supplied refresh token also fails, authenticateJWT does not propagate
the underlying taxonomy error: it replaces it with the generic
bothTokensInvalid unauthorized error (while keeping the failure-path
side effects of the rotation attempt). -/
theorem authenticateJWT_masks_rotation_error (st st1 : DBState) (now : Nat)
    (atk rtk : SignedToken) (ua ip : Option String) (e1 e2 : AuthError)
    (hacc : verifyAccessToken st now atk = Except.error e1)
    (hrot : rotateRefreshToken st now rtk ua ip (some (generateDeviceFingerprint ua)) =
      (Except.error e2, st1)) :
    authenticateJWT st now (some atk) (some rtk) ua ip =
      (Except.error AuthError.bothTokensInvalid, st1) := by
  simp only [authenticateJWT, hacc, hrot]

theorem authenticateJWT_masks_rotation_error_witness :
    authenticateJWT demoStateRotated 20000 (some (SignedToken.garbage "g"))
        (some (SignedToken.refreshJwt demoPayload)) none none =
      (Except.error AuthError.bothTokensInvalid,
       (rotateRefreshToken demoStateRotated 20000 (SignedToken.refreshJwt demoPayload)
         none none (some (generateDeviceFingerprint none))).2) :=
  authenticateJWT_masks_rotation_error demoStateRotated
    (rotateRefreshToken demoStateRotated 20000 (SignedToken.refreshJwt demoPayload)
      none none (some (generateDeviceFingerprint none))).2 20000
    (SignedToken.garbage "g") (SignedToken.refreshJwt demoPayload) none none
    AuthError.invalidAccess AuthError.tokenReuseDetected (by decide) (by decide)

/-- C6 (counterexample to the claim as stated).  The rotation engine fails
with the taxonomy error tokenReuseDetected, but the middleware reports
the generic bothTokensInvalid error instead of propagating it. -/
theorem authenticateJWT_no_propagation_counterexample :
    (rotateRefreshToken demoStateRotated 20000 (SignedToken.refreshJwt demoPayload)
        none none (some (generateDeviceFingerprint none))).1 =
      Except.error AuthError.tokenReuseDetected ∧
    (authenticateJWT demoStateRotated 20000 (some (SignedToken.garbage "g"))
        (some (SignedToken.refreshJwt demoPayload)) none none).1 =
      Except.error AuthError.bothTokensInvalid ∧
    AuthError.bothTokensInvalid ≠ AuthError.tokenReuseDetected := by
  refine ⟨by decide, by decide, by decide⟩

/-- C8 (amended).  blacklistAccessToken adds a deny-list entry whose
time-to-live is the fixed full access-token lifetime (5 minutes),
independent of the remaining lifetime of the credential, and while the
entry is present verifyAccessToken fails with the revoked-token error. -/
theorem blacklist_fixed_ttl_blocks_verification (st : DBState) (now now2 : Nat)
    (tok : SignedToken)
    (h2 : now2 < now + 5 * 60 * 1000) :
    (blacklistAccessToken st now tok).blacklist = st.blacklist ++ [(tok, now + 5 * 60 * 1000)] ∧
    verifyAccessToken (blacklistAccessToken st now tok) now2 tok =
      Except.error AuthError.accessRevoked := by
  refine ⟨rfl, ?_⟩
  have hactive : blacklistActive (blacklistAccessToken st now tok) now2 tok = true := by
    simp [blacklistActive, blacklistAccessToken, h2]
  simp [verifyAccessToken, hactive]

theorem blacklist_fixed_ttl_blocks_verification_witness :
    (blacklistAccessToken demoState 0 (SignedToken.accessJwt demoAccessPayload)).blacklist =
      demoState.blacklist ++ [(SignedToken.accessJwt demoAccessPayload, 0 + 5 * 60 * 1000)] ∧
    verifyAccessToken (blacklistAccessToken demoState 0 (SignedToken.accessJwt demoAccessPayload))
        100 (SignedToken.accessJwt demoAccessPayload) =
      Except.error AuthError.accessRevoked :=
  blacklist_fixed_ttl_blocks_verification demoState 0 100
    (SignedToken.accessJwt demoAccessPayload) (by decide)

/-- C8 (counterexample to the claim as stated).  At t = 0 the demo access
credential has 120 000 ms of lifetime left, but the deny-list entry is
kept for the full 300 000 ms: the TTL is not the remaining lifetime. -/
theorem blacklist_ttl_not_remaining_lifetime_counterexample :
    0 < demoAccessPayload.exp ∧
    (blacklistAccessToken demoState 0 (SignedToken.accessJwt demoAccessPayload)).blacklist =
      [(SignedToken.accessJwt demoAccessPayload, 300000)] ∧
    demoAccessPayload.exp - 0 = 120000 ∧
    (300000 : Nat) ≠ 120000 := by
  refine ⟨by decide, by decide, by decide, by decide⟩

/-- C9.  For one auth event on an untrusted device: a fingerprint with no
prior login event raises exactly one new_device alert; a known
fingerprint with an unseen origin raises exactly one new_location alert;
and in every case at most one alert is appended, never both. -/
theorem processAuthEvent_alert_classification (st : DBState) (now : Nat) (uid : String)
    (ip ua : Option String) (evk : LoginEventType)
    (huntrusted : st.trustedDevices.find?
      (fun d => decide (d.userId = uid) &&
        decide (d.deviceFingerprint = generateDeviceFingerprint ua)) = none) :
    (st.loginHistory.find? (fun e => decide (e.userId = uid) &&
        decide (e.deviceFingerprint = generateDeviceFingerprint ua)) = none →
      (processAuthEvent st now uid ip ua evk).2.securityAlerts =
        st.securityAlerts ++ [{ userId := uid, alertType := AlertType.new_device }]) ∧
    (st.loginHistory.find? (fun e => decide (e.userId = uid) &&
        decide (e.deviceFingerprint = generateDeviceFingerprint ua)) ≠ none →
      st.loginHistory.find? (fun e => decide (e.userId = uid) &&
        decide (e.ipAddress = normalizeIp ip)) = none →
      (processAuthEvent st now uid ip ua evk).2.securityAlerts =
        st.securityAlerts ++ [{ userId := uid, alertType := AlertType.new_location }]) ∧
    ((processAuthEvent st now uid ip ua evk).2.securityAlerts = st.securityAlerts ∨
      ∃ a : SecurityAlert, (processAuthEvent st now uid ip ua evk).2.securityAlerts =
        st.securityAlerts ++ [a]) := by
  refine ⟨?_, ?_, ?_⟩
  · intro hd
    simp [processAuthEvent, huntrusted, hd, createSecurityAlert, recordLoginEvent]
  · intro hd hi
    rcases hfd : st.loginHistory.find? (fun e => decide (e.userId = uid) &&
        decide (e.deviceFingerprint = generateDeviceFingerprint ua)) with _ | y
    · exact absurd hfd hd
    · simp [processAuthEvent, huntrusted, hfd, hi, createSecurityAlert, recordLoginEvent]
  · rcases hfd : st.loginHistory.find? (fun e => decide (e.userId = uid) &&
        decide (e.deviceFingerprint = generateDeviceFingerprint ua)) with _ | y
    · right
      refine ⟨{ userId := uid, alertType := AlertType.new_device }, ?_⟩
      simp [processAuthEvent, huntrusted, hfd, createSecurityAlert, recordLoginEvent]
    · rcases hfi : st.loginHistory.find? (fun e => decide (e.userId = uid) &&
          decide (e.ipAddress = normalizeIp ip)) with _ | z
      · right
        refine ⟨{ userId := uid, alertType := AlertType.new_location }, ?_⟩
        simp [processAuthEvent, huntrusted, hfd, hfi, createSecurityAlert, recordLoginEvent]
      · left
        simp [processAuthEvent, huntrusted, hfd, hfi, recordLoginEvent]

theorem processAuthEvent_alert_classification_witness :
    (demoState.loginHistory.find? (fun e => decide (e.userId = "u1") &&
        decide (e.deviceFingerprint = generateDeviceFingerprint (some "UA1"))) = none →
      (processAuthEvent demoState 1000 "u1" (some "1.2.3.4") (some "UA1")
          LoginEventType.login).2.securityAlerts =
        demoState.securityAlerts ++ [{ userId := "u1", alertType := AlertType.new_device }]) ∧
    (demoState.loginHistory.find? (fun e => decide (e.userId = "u1") &&
        decide (e.deviceFingerprint = generateDeviceFingerprint (some "UA1"))) ≠ none →
      demoState.loginHistory.find? (fun e => decide (e.userId = "u1") &&
        decide (e.ipAddress = normalizeIp (some "1.2.3.4"))) = none →
      (processAuthEvent demoState 1000 "u1" (some "1.2.3.4") (some "UA1")
          LoginEventType.login).2.securityAlerts =
        demoState.securityAlerts ++ [{ userId := "u1", alertType := AlertType.new_location }]) ∧
    ((processAuthEvent demoState 1000 "u1" (some "1.2.3.4") (some "UA1")
        LoginEventType.login).2.securityAlerts = demoState.securityAlerts ∨
      ∃ a : SecurityAlert, (processAuthEvent demoState 1000 "u1" (some "1.2.3.4") (some "UA1")
          LoginEventType.login).2.securityAlerts = demoState.securityAlerts ++ [a]) :=
  processAuthEvent_alert_classification demoState 1000 "u1" (some "1.2.3.4") (some "UA1")
    LoginEventType.login (by decide)

theorem engine_ops_preserve_record_invariants_witness :
    recordsPreserve demoState.refreshTokens
      (applyOp demoState 1000 (EngineOp.revokeFamily "famA")).refreshTokens :=
  engine_ops_preserve_record_invariants demoState 1000 (EngineOp.revokeFamily "famA")

end SessionSec
